import Mathlib

/-!
Verification development for `scripts/sync_icons.py` (videnoa repository).

The script regenerates icon files (PNG / ICO / SVG passthrough) for the
targets `web` and `desktop` from one square source image.  The embedding
below translates the script's pure logic into Lean: Python strings are
`String` (operated on through their code-point list `String.data`, which
matches Python's code-point semantics), filesystem and library effects are
an explicit `Env` record, images are a symbolic `Img` term recording how a
bitmap was produced, and writes are the list of `(path, content)` pairs
the script would emit, in emission order.
-/

/- ## String utilities (Python `str` primitives used by the script) -/

/-- Python `str.split(sep)` on a one-character separator, accumulator form:
splitting the empty string yields `[""]`, exactly as in Python. -/
def splitCharAux (sep : Char) (cur : List Char) : List Char → List (List Char)
  | [] => [cur.reverse]
  | c :: cs =>
    if c = sep then cur.reverse :: splitCharAux sep [] cs
    else splitCharAux sep (c :: cur) cs

/-- Python `value.split(sep)` for a one-character separator. -/
def splitChar (sep : Char) (s : String) : List String :=
  (splitCharAux sep [] s.data).map (fun l => ⟨l⟩)

/-- Whitespace stripped by Python `str.strip()` (ASCII subset: space, tab,
newline, carriage return, vertical tab, form feed). -/
def isPyWhitespace (c : Char) : Bool :=
  c = ' ' ∨ c = '\t' ∨ c = '\n' ∨ c = '\r' ∨ c = '\x0b' ∨ c = '\x0c'

/-- Python `s.strip()`. -/
def strTrim (s : String) : String :=
  ⟨((s.data.dropWhile isPyWhitespace).reverse.dropWhile isPyWhitespace).reverse⟩

/-- Python `str.lower()` restricted to ASCII letters, which is all the
script ever lowercases (file suffixes such as ".PNG"/".SVG"). -/
def lowerChar (c : Char) : Char :=
  if 'A' ≤ c ∧ c ≤ 'Z' then Char.ofNat (c.toNat + 32) else c

/-- Python `s.lower()`. -/
def strLower (s : String) : String := ⟨s.data.map lowerChar⟩

/-- Lexicographic code-point comparison on code-point lists, as Python
`<` on `str`. -/
def strLtChars : List Char → List Char → Bool
  | [], [] => false
  | [], _ :: _ => true
  | _ :: _, [] => false
  | c :: cs, d :: ds =>
    if c.toNat < d.toNat then true
    else if d.toNat < c.toNat then false
    else strLtChars cs ds

/-- Python `a < b` on strings. -/
def strLtB (a b : String) : Bool := strLtChars a.data b.data

/-- Insert a string into a (sorted) list before the first larger element. -/
def insertSorted (a : String) : List String → List String
  | [] => [a]
  | b :: l => if strLtB a b then a :: b :: l else b :: insertSorted a l

/-- Python `sorted` on a list of strings (insertion sort; the script only
sorts lists of distinct strings, where every correct sort agrees). -/
def sortStrings : List String → List String
  | [] => []
  | a :: l => insertSorted a (sortStrings l)

/-- Python `",".join(l)`. -/
def joinComma : List String → String
  | [] => ""
  | [s] => s
  | s :: rest => s ++ "," ++ joinComma rest

/-- Deduplication keeping the first occurrence, with an explicit `seen`
accumulator: the `deduped`/`seen` loop of `parse_targets`. -/
def dedupFirstAux (seen : List String) : List String → List String
  | [] => []
  | t :: rest =>
    if t ∈ seen then dedupFirstAux seen rest
    else t :: dedupFirstAux (t :: seen) rest

/-- The `deduped` list built by the loop in `parse_targets`: order of first
occurrence preserved, duplicates dropped. -/
def dedupFirst (l : List String) : List String := dedupFirstAux [] l

/- ## Path model (the parts of `pathlib.Path` the script uses) -/

/-- Python `Path(p).name` for plain POSIX-style paths: the component after
the last slash. -/
def pathName (p : String) : String := (splitChar '/' p).getLastD ""

/-- Rightmost index of a character in a code-point list (`str.rfind`),
`none` when absent. -/
def rfindCharAux (c : Char) : List Char → Nat → Option Nat → Option Nat
  | [], _, best => best
  | d :: ds, i, best => rfindCharAux c ds (i + 1) (if d = c then some i else best)

/-- Python `Path(p).suffix`: the part of the final component from its last
dot on, provided that dot is neither the first nor the last character of
the component; otherwise the empty string. -/
def pathSuffix (p : String) : String :=
  let name := (pathName p).data
  match rfindCharAux '.' name 0 none with
  | none => ""
  | some i => if 0 < i ∧ i + 1 < name.length then ⟨name.drop i⟩ else ""

/- ## Data model -/

/-- Symbolic bitmap: records how an in-memory PIL image was produced.
`decoded` is an image as returned by `Image.open` + `load()` (carrying the
decoder `format` tag), `converted` is `image.convert(mode)`,
`fromBytes` is `Image.frombytes(mode, size, bytes)` and `resized` is
`image.resize((w, h), filter)`. -/
inductive Img where
  | decoded (format : String) (mode : String) (w h : Nat)
  | converted (src : Img) (mode : String)
  | fromBytes (mode : String) (w h : Nat) (src : Img)
  | resized (src : Img) (w h : Nat) (filter : Nat)
deriving DecidableEq

/-- Pixel width of a symbolic image (`convert` keeps the size, `frombytes`
and `resize` have the size they were given). -/
def imgWidth : Img → Nat
  | .decoded _ _ w _ => w
  | .converted src _ => imgWidth src
  | .fromBytes _ w _ _ => w
  | .resized _ w _ _ => w

/-- Pixel height of a symbolic image. -/
def imgHeight : Img → Nat
  | .decoded _ _ _ h => h
  | .converted src _ => imgHeight src
  | .fromBytes _ _ h _ => h
  | .resized _ _ h _ => h

/-- Result of asking PIL to open and load an image file: a decoded image
(with its decoder format tag, mode and size), an `UnidentifiedImageError`,
or an `OSError` with its message. -/
inductive DecodeResult where
  | ok (format : String) (mode : String) (w h : Nat)
  | unidentified
  | osError (msg : String)
deriving DecidableEq

/-- The external world the script consults while loading the source:
existence and regular-file status of the source path, what PIL decoding of
the source yields, whether ImageMagick `convert` resolves on `PATH`,
whether the `convert` subprocess exits zero, and what PIL decoding of the
rendered temporary PNG yields. -/
structure Env where
  sourceExists : Bool
  sourceIsFile : Bool
  pngDecode : DecodeResult
  convertAvailable : Bool
  convertOk : Bool
  renderedDecode : DecodeResult
deriving DecidableEq

/-- Per-target output configuration (`TargetConfig` dataclass): PNG entries
as (pixel size, repository-relative path), ICO paths, SVG passthrough
paths. -/
structure TargetConfig where
  png : List (Nat × String)
  ico : List String
  svg : List String
deriving DecidableEq

/-- The static registry `MANAGED_TARGETS`, in the dict's insertion order. -/
def MANAGED_TARGETS : List (String × TargetConfig) :=
  [("web",
    ⟨[(16, "web/public/favicon-16x16.png"),
      (32, "web/public/favicon-32x32.png"),
      (512, "web/public/videnoa_icon.png")],
     ["web/public/favicon.ico"],
     ["web/public/favicon.svg"]⟩),
   ("desktop",
    ⟨[(512, "crates/desktop/icons/icon.png"),
      (32, "crates/desktop/icons/icon-32.png"),
      (64, "crates/desktop/icons/icon-64.png"),
      (128, "crates/desktop/icons/icon-128.png"),
      (256, "crates/desktop/icons/icon-256.png")],
     ["crates/desktop/icons/icon.ico"],
     []⟩)]

/-- Python `MANAGED_TARGETS[name]` as a partial lookup (`none` models the
`KeyError` an unknown key would raise). -/
def lookupTarget (name : String) : Option TargetConfig :=
  (MANAGED_TARGETS.find? (fun p => decide (p.1 = name))).map Prod.snd

/-- Python `MANAGED_TARGETS.keys()` (insertion order). -/
def knownTargets : List String := MANAGED_TARGETS.map Prod.fst

/-- `ICO_ENTRY_SIZES = (16, 24, 32, 48, 64, 128, 256)`. -/
def ICO_ENTRY_SIZES : List Nat := [16, 24, 32, 48, 64, 128, 256]

/-- `PNG_COMPRESS_LEVEL = 9`. -/
def PNG_COMPRESS_LEVEL : Nat := 9

/-- PIL `Image.Resampling.LANCZOS` (numeric value 1). -/
def LANCZOS : Nat := 1

/-- `RESAMPLE_FILTER = _resample_filter()`, which is LANCZOS whenever PIL
is present (both branches of `_resample_filter` yield LANCZOS). -/
def RESAMPLE_FILTER : Nat := LANCZOS

/- ## CLI parsing (`parse_targets`) -/

/-- The list comprehension in `parse_targets`:
`[segment.strip() for segment in value.split(",") if segment.strip()]`. -/
def pyTokens (value : String) : List String :=
  ((splitChar ',' value).map strTrim).filter (fun s => decide (s ≠ ""))

/-- The value `sorted(set(raw_targets) - known)` computed in
`parse_targets`: the distinct tokens outside the registry, sorted (a
Python set difference followed by `sorted` equals deduplication followed
by sorting). -/
def unknownSorted (value : String) : List String :=
  sortStrings (dedupFirst ((pyTokens value).filter (fun t => decide (t ∉ knownTargets))))

/-- The `--targets` converter `parse_targets`: splits on commas, trims,
rejects an empty list, rejects unknown names (error message listing the
sorted unknown names and the sorted supported set), and returns the
first-occurrence deduplication of the tokens.  `Except.error` models the
`argparse.ArgumentTypeError` it raises. -/
def parse_targets (value : String) : Except String (List String) :=
  if pyTokens value = [] then
    Except.error "--targets must include at least one target"
  else if unknownSorted value = [] then
    Except.ok (dedupFirst (pyTokens value))
  else
    Except.error ("unknown target(s): " ++ joinComma (unknownSorted value)
      ++ ". Supported targets: " ++ joinComma (sortStrings knownTargets))

/- ## Source loading -/

/-- `load_png_image`: opening the source with PIL either raises
`UnidentifiedImageError` ("source is not a readable image"), raises
`OSError` ("cannot read source image"), or decodes; a decoded image whose
format tag is not "PNG" is rejected, otherwise it is converted to RGBA. -/
def load_png_image (env : Env) (sourcePath : String) : Except String Img :=
  match env.pngDecode with
  | DecodeResult.unidentified =>
    Except.error ("source is not a readable image: " ++ sourcePath)
  | DecodeResult.osError e =>
    Except.error ("cannot read source image: " ++ sourcePath ++ ": " ++ e)
  | DecodeResult.ok format mode w h =>
    if format = "PNG" then Except.ok (Img.converted (Img.decoded format mode w h) "RGBA")
    else Except.error ("source must be a PNG image: " ++ sourcePath)

/-- `load_svg_image`: fails if ImageMagick `convert` is not on PATH, then
if the `convert` subprocess exits non-zero, then decodes the rendered
temporary PNG (with the same two PIL failure modes as for PNG sources)
and converts it to RGBA. -/
def load_svg_image (env : Env) (sourcePath : String) : Except String Img :=
  if env.convertAvailable = false then
    Except.error "source is SVG but ImageMagick \x27convert\x27 is not installed"
  else if env.convertOk = false then
    Except.error "cannot rasterize SVG source"
  else
    match env.renderedDecode with
    | DecodeResult.unidentified =>
      Except.error ("rendered SVG is not a readable image: " ++ sourcePath)
    | DecodeResult.osError e =>
      Except.error ("cannot read rendered SVG image: " ++ sourcePath ++ ": " ++ e)
    | DecodeResult.ok format mode w h =>
      Except.ok (Img.converted (Img.decoded format mode w h) "RGBA")

/-- The extension dispatch inside `load_source_image`: lower-cased suffix
".png" decodes directly, ".svg" rasterizes, anything else is rejected. -/
def decode_branch (env : Env) (sourcePath : String) : Except String Img :=
  let suffix := strLower (pathSuffix sourcePath)
  if suffix = ".png" then load_png_image env sourcePath
  else if suffix = ".svg" then load_svg_image env sourcePath
  else Except.error ("source must be a .svg or .png image: " ++ sourcePath)

/-- The message of the squareness `ValueError` in `load_source_image`. -/
def squareErrorMsg (w h : Nat) (sourcePath : String) : String :=
  "source image must be square, got " ++ toString w ++ "x" ++ toString h
    ++ ": " ++ sourcePath

/-- `load_source_image`: existence and regular-file checks, extension
dispatch, squareness check, then normalization through
`Image.frombytes("RGBA", rgba.size, rgba.tobytes())`. -/
def load_source_image (env : Env) (sourcePath : String) : Except String Img :=
  if env.sourceExists = false then
    Except.error ("source file does not exist: " ++ sourcePath)
  else if env.sourceIsFile = false then
    Except.error ("source path is not a file: " ++ sourcePath)
  else
    match decode_branch env sourcePath with
    | Except.error e => Except.error e
    | Except.ok rgba =>
      if imgWidth rgba = imgHeight rgba then
        Except.ok (Img.fromBytes "RGBA" (imgWidth rgba) (imgHeight rgba) rgba)
      else
        Except.error (squareErrorMsg (imgWidth rgba) (imgHeight rgba) sourcePath)

/- ## Writing -/

/-- Content of one written output file: an encoded PNG (the resized image,
the compress level, the optimize flag), an encoded ICO (its embedded
frames), or a verbatim `shutil.copy2` of the SVG source. -/
inductive FileContent where
  | pngFile (img : Img) (compressLevel : Nat) (optimizeFlag : Bool)
  | icoFile (entries : List Img)
  | svgCopy (fromPath : String)
deriving DecidableEq

/-- `ROOT_DIR / relative_path` (POSIX join). -/
def joinPath (root rel : String) : String := root ++ "/" ++ rel

/-- `save_png`: resizes the source to `size`x`size` with `RESAMPLE_FILTER`
and encodes it as PNG with `compress_level=9`, `optimize=False`. -/
def save_png (source : Img) (size : Nat) (outputPath : String) : String × FileContent :=
  (outputPath,
   FileContent.pngFile (Img.resized source size size RESAMPLE_FILTER) PNG_COMPRESS_LEVEL false)

/-- `save_ico`: one ICO with `sizes=[(s, s) for s in ICO_ENTRY_SIZES]`.
PIL's ICO encoder is modelled as embedding one frame per requested size,
each produced by LANCZOS-resizing the saved image to that size. -/
def save_ico (source : Img) (outputPath : String) : String × FileContent :=
  (outputPath,
   FileContent.icoFile (ICO_ENTRY_SIZES.map (fun s => Img.resized source s s RESAMPLE_FILTER)))

/-- `save_svg`: `shutil.copy2(source_path, output_path)`. -/
def save_svg (sourcePath : String) (outputPath : String) : String × FileContent :=
  (outputPath, FileContent.svgCopy sourcePath)

/-- The `source_is_svg` test in `sync_targets`:
`source_path.suffix.lower() == ".svg"`. -/
def source_is_svg (sourcePath : String) : Bool :=
  decide (strLower (pathSuffix sourcePath) = ".svg")

/-- Writes of one loop iteration of `sync_targets`: the target's PNG
entries in declared order, then its ICO paths, then (for an SVG source)
its SVG paths. -/
def syncTargetWrites (root : String) (source : Img) (sourcePath : String)
    (config : TargetConfig) : List (String × FileContent) :=
  config.png.map (fun e => save_png source e.1 (joinPath root e.2))
    ++ config.ico.map (fun p => save_ico source (joinPath root p))
    ++ (if source_is_svg sourcePath then
          config.svg.map (fun p => save_svg sourcePath (joinPath root p))
        else [])

/-- `sync_targets`: the `written` list in emission order (targets in
selection order; per target PNGs, then ICOs, then SVG copies).  `none`
models the `KeyError` that `MANAGED_TARGETS[target]` would raise for a
name outside the registry. -/
def sync_targets (root : String) (source : Img) (sourcePath : String) :
    List String → Option (List (String × FileContent))
  | [] => some []
  | t :: ts =>
    match lookupTarget t with
    | none => none
    | some config =>
      match sync_targets root source sourcePath ts with
      | none => none
      | some rest => some (syncTargetWrites root source sourcePath config ++ rest)

/- ## Orchestration (`main`) -/

/-- Terminal outcome of one invocation. `usageError` is an
`argparse.ArgumentTypeError` surfaced by `argparse` (usage message,
`SystemExit(2)`); `handledError` is a `ValueError` caught in `main`
(printed as `error: ...`, return 1); `success` carries the written files;
`crash` is an uncaught exception. -/
inductive Outcome where
  | usageError (msg : String)
  | handledError (msg : String)
  | success (written : List (String × FileContent))
  | crash
deriving DecidableEq

/-- `main`, given the environment, the repository root, the (resolved)
`--source` value and the raw `--targets` value.  Argument parsing runs
first (so a `--targets` failure happens before the source is touched),
then the loader, then the writer. -/
def sync_icons_main (env : Env) (root sourceArg targetsValue : String) : Outcome :=
  match parse_targets targetsValue with
  | Except.error e => Outcome.usageError e
  | Except.ok targets =>
    match load_source_image env sourceArg with
    | Except.error e => Outcome.handledError e
    | Except.ok img =>
      match sync_targets root img sourceArg targets with
      | none => Outcome.crash
      | some written => Outcome.success written

/-- Process exit status of an outcome: `argparse` exits 2 on argument
errors, handled `ValueError`s return 1, success returns 0, an uncaught
exception makes the interpreter exit 1 (with a traceback). -/
def exitCode : Outcome → Nat
  | Outcome.usageError _ => 2
  | Outcome.handledError _ => 1
  | Outcome.success _ => 0
  | Outcome.crash => 1

/-- Standard-error text of an outcome (`none` for success; an uncaught
exception prints a traceback, not modelled). -/
def stderrText : Outcome → Option String
  | Outcome.usageError e =>
    some ("usage: sync_icons.py [-h] --source SOURCE --targets TARGETS\nsync_icons.py: error: argument --targets: " ++ e)
  | Outcome.handledError e => some ("error: " ++ e)
  | Outcome.success _ => none
  | Outcome.crash => none

/-- Standard-output text of an outcome (`synced N icon files` on success). -/
def stdoutText : Outcome → Option String
  | Outcome.success written =>
    some ("synced " ++ toString written.length ++ " icon files")
  | _ => none

/-- Files written by an outcome (writes happen only on the success path;
every error path of the model aborts before any write). -/
def writtenFiles : Outcome → List (String × FileContent)
  | Outcome.success written => written
  | _ => []

/- ## Content classifiers and spec-side path list -/

/-- Whether a written content is an encoded PNG. -/
def isPngContent : FileContent → Bool
  | FileContent.pngFile _ _ _ => true
  | _ => false

/-- Whether a written content is an encoded ICO. -/
def isIcoContent : FileContent → Bool
  | FileContent.icoFile _ => true
  | _ => false

/-- Whether a written content is an SVG passthrough copy. -/
def isSvgCopyContent : FileContent → Bool
  | FileContent.svgCopy _ => true
  | _ => false

/-- Number of written files whose content satisfies `p`. -/
def countContent (p : FileContent → Bool) (w : List (String × FileContent)) : Nat :=
  List.countP (fun e => p e.2) w

/-- Spec-side description of one target's output paths, in the order the
spec declares: PNG entries in declared order, then ICO paths, then (for an
SVG source) SVG paths. -/
def declared_output_paths (root : String) (svgSource : Bool) (t : String) : List String :=
  match lookupTarget t with
  | none => []
  | some cfg =>
    cfg.png.map (fun e => joinPath root e.2) ++ cfg.ico.map (joinPath root)
      ++ (if svgSource then cfg.svg.map (joinPath root) else [])

/- ## Concrete fixtures -/

/-- A decoded 512x512 RGBA PNG bitmap. -/
def imgDemo : Img := Img.decoded "PNG" "RGBA" 512 512

/-- Environment with a valid square 512x512 PNG source. -/
def envPngSquare : Env :=
  ⟨true, true, DecodeResult.ok "PNG" "RGBA" 512 512, true, true,
   DecodeResult.ok "PNG" "RGBA" 1024 1024⟩

/-- Environment whose PNG source decodes to a non-square 100x50 bitmap. -/
def envNonSquare : Env :=
  ⟨true, true, DecodeResult.ok "PNG" "RGBA" 100 50, true, true,
   DecodeResult.unidentified⟩

/-- Environment where ImageMagick `convert` is not on the PATH. -/
def envNoConvert : Env :=
  ⟨true, true, DecodeResult.unidentified, false, true, DecodeResult.unidentified⟩

/-- Environment with a valid SVG toolchain rendering a square bitmap. -/
def envSvgOk : Env :=
  ⟨true, true, DecodeResult.unidentified, true, true,
   DecodeResult.ok "PNG" "RGBA" 1024 1024⟩

example : pyTokens "web,desktop,web" = ["web", "desktop", "web"] := by decide
example : parse_targets "web,desktop,web" = Except.ok ["web", "desktop"] := by rfl
example : parse_targets "bogus" =
    Except.error "unknown target(s): bogus. Supported targets: desktop,web" := by rfl
example : parse_targets " , " = Except.error "--targets must include at least one target" := by rfl
example : pathSuffix "assets/icon.SVG" = ".SVG" := by decide
example : source_is_svg "assets/icon.SVG" = true := by decide
example : load_source_image envNonSquare "icon.png" =
    Except.error (squareErrorMsg 100 50 "icon.png") := by rfl
example : sync_icons_main envPngSquare "repo" "icon.png" "web" =
    Outcome.success ((sync_targets "repo"
      (Img.fromBytes "RGBA" 512 512 (Img.converted (Img.decoded "PNG" "RGBA" 512 512) "RGBA"))
      "icon.png" ["web"]).getD []) := by decide
example : countContent isPngContent ((sync_targets "repo" imgDemo "icon.png" ["web"]).getD []) = 3 := by decide

/- ## Helper lemmas -/

/-- Concatenation of per-target path lists, in target order. -/
def concatPaths (f : String → List String) : List String → List String
  | [] => []
  | t :: ts => f t ++ concatPaths f ts

theorem mem_insertSorted {x a : String} {l : List String} :
    x ∈ insertSorted a l ↔ x = a ∨ x ∈ l := by
  induction l with
  | nil => simp [insertSorted]
  | cons b l ih =>
    by_cases h : strLtB a b
    · simp [insertSorted, h]
    · simp [insertSorted, h, ih]
      tauto

theorem insertSorted_ne_nil (a : String) (l : List String) : insertSorted a l ≠ [] := by
  cases l with
  | nil => simp [insertSorted]
  | cons b l =>
    by_cases h : strLtB a b <;> simp [insertSorted, h]

theorem mem_sortStrings {x : String} {l : List String} : x ∈ sortStrings l ↔ x ∈ l := by
  induction l with
  | nil => simp [sortStrings]
  | cons a l ih => simp [sortStrings, mem_insertSorted, ih]

theorem mem_dedupFirstAux {x : String} {l seen : List String} :
    x ∈ dedupFirstAux seen l ↔ x ∈ l ∧ x ∉ seen := by
  induction l generalizing seen with
  | nil => simp [dedupFirstAux]
  | cons t rest ih =>
    by_cases h : t ∈ seen
    · rw [dedupFirstAux, if_pos h, ih]
      constructor
      · intro hx
        exact ⟨List.mem_cons_of_mem _ hx.1, hx.2⟩
      · rintro ⟨hx, hs⟩
        rcases List.mem_cons.mp hx with rfl | hx2
        · exact absurd h hs
        · exact ⟨hx2, hs⟩
    · rw [dedupFirstAux, if_neg h]
      constructor
      · intro hx
        rcases List.mem_cons.mp hx with rfl | hx2
        · exact ⟨List.mem_cons_self x rest, h⟩
        · obtain ⟨h3, h4⟩ := ih.mp hx2
          exact ⟨List.mem_cons_of_mem _ h3, fun hc => h4 (List.mem_cons_of_mem _ hc)⟩
      · rintro ⟨hx, hs⟩
        rcases List.mem_cons.mp hx with rfl | hx2
        · exact List.mem_cons_self x _
        · by_cases hxt : x = t
          · subst hxt
            exact List.mem_cons_self x _
          · refine List.mem_cons_of_mem _ (ih.mpr ⟨hx2, fun hc => ?_⟩)
            rcases List.mem_cons.mp hc with h1 | h2
            · exact hxt h1
            · exact hs h2

theorem nodup_dedupFirstAux {l seen : List String} : (dedupFirstAux seen l).Nodup := by
  induction l generalizing seen with
  | nil => simp [dedupFirstAux]
  | cons t rest ih =>
    by_cases h : t ∈ seen
    · simpa [dedupFirstAux, h] using ih
    · rw [dedupFirstAux, if_neg h, List.nodup_cons]
      refine ⟨fun hc => ?_, ih⟩
      rw [mem_dedupFirstAux] at hc
      exact hc.2 (List.mem_cons_self t seen)

theorem sublist_dedupFirstAux {l seen : List String} :
    List.Sublist (dedupFirstAux seen l) l := by
  induction l generalizing seen with
  | nil => simp [dedupFirstAux]
  | cons t rest ih =>
    by_cases h : t ∈ seen
    · rw [dedupFirstAux, if_pos h]
      exact List.Sublist.cons t ih
    · rw [dedupFirstAux, if_neg h]
      exact List.Sublist.cons₂ t ih

theorem mem_dedupFirst {x : String} {l : List String} : x ∈ dedupFirst l ↔ x ∈ l := by
  simp [dedupFirst, mem_dedupFirstAux]

theorem mem_unknownSorted {t value : String} :
    t ∈ unknownSorted value ↔ t ∈ pyTokens value ∧ t ∉ knownTargets := by
  simp [unknownSorted, mem_sortStrings, mem_dedupFirst, List.mem_filter]

theorem parse_targets_ok_inv {value : String} {ts : List String}
    (h : parse_targets value = Except.ok ts) :
    pyTokens value ≠ [] ∧ (∀ t ∈ pyTokens value, t ∈ knownTargets)
      ∧ ts = dedupFirst (pyTokens value) := by
  by_cases h1 : pyTokens value = []
  · simp [parse_targets, h1] at h
  · by_cases h2 : unknownSorted value = []
    · refine ⟨h1, ?_, ?_⟩
      · intro t ht
        by_contra hk
        have hu : t ∈ unknownSorted value := mem_unknownSorted.mpr ⟨ht, hk⟩
        rw [h2] at hu
        simp at hu
      · simp [parse_targets, h1, h2] at h
        exact h.symm
    · simp [parse_targets, h1, h2] at h

theorem parse_targets_error_unknown {value t : String}
    (ht : t ∈ pyTokens value) (hk : t ∉ knownTargets) :
    parse_targets value = Except.error ("unknown target(s): "
      ++ joinComma (unknownSorted value)
      ++ ". Supported targets: " ++ joinComma (sortStrings knownTargets)) := by
  have h1 : pyTokens value ≠ [] := List.ne_nil_of_mem ht
  have h2 : unknownSorted value ≠ [] :=
    List.ne_nil_of_mem (mem_unknownSorted.mpr ⟨ht, hk⟩)
  simp [parse_targets, h1, h2]

theorem lookupTarget_isSome {t : String} (h : t ∈ knownTargets) :
    (lookupTarget t).isSome := by
  have hk : t = "web" ∨ t = "desktop" := by
    have he : knownTargets = ["web", "desktop"] := rfl
    rw [he] at h
    simpa using h
  rcases hk with rfl | rfl <;> rfl

theorem sync_targets_known {root : String} {img : Img} {src : String} {ts : List String}
    (h : ∀ t ∈ ts, t ∈ knownTargets) :
    ∃ w, sync_targets root img src ts = some w
      ∧ w.map Prod.fst = concatPaths (declared_output_paths root (source_is_svg src)) ts := by
  induction ts with
  | nil => exact ⟨[], rfl, rfl⟩
  | cons t ts ih =>
    have hk := h t (List.mem_cons_self t ts)
    obtain ⟨cfg, hcfg⟩ := Option.isSome_iff_exists.mp (lookupTarget_isSome hk)
    obtain ⟨w, hw, hmap⟩ := ih (fun x hx => h x (List.mem_cons_of_mem _ hx))
    refine ⟨syncTargetWrites root img src cfg ++ w, ?_, ?_⟩
    · simp [sync_targets, hcfg, hw]
    · by_cases hs : source_is_svg src
      · simp [concatPaths, hmap, declared_output_paths, hcfg, syncTargetWrites,
          save_png, save_ico, save_svg, hs, List.map_append, List.map_map, Function.comp_def]
      · simp [concatPaths, hmap, declared_output_paths, hcfg, syncTargetWrites,
          save_png, save_ico, save_svg, hs, List.map_append, List.map_map, Function.comp_def]

theorem icoFile_mem_syncTargetWrites {root : String} {img : Img} {src : String}
    {cfg : TargetConfig} {p : String} {es : List Img}
    (h : (p, FileContent.icoFile es) ∈ syncTargetWrites root img src cfg) :
    es = ICO_ENTRY_SIZES.map (fun s => Img.resized img s s RESAMPLE_FILTER) := by
  unfold syncTargetWrites at h
  rcases List.mem_append.mp h with h1 | h1
  · rcases List.mem_append.mp h1 with h2 | h2
    · obtain ⟨e, _, he⟩ := List.mem_map.mp h2
      simp [save_png] at he
    · obtain ⟨q, _, he⟩ := List.mem_map.mp h2
      have hsnd := congrArg Prod.snd he
      simp [save_ico] at hsnd
      exact hsnd.symm
  · by_cases hsvg : source_is_svg src = true
    · rw [if_pos hsvg] at h1
      obtain ⟨q, _, he⟩ := List.mem_map.mp h1
      simp [save_svg] at he
    · rw [if_neg hsvg] at h1
      simp at h1

theorem icoFile_mem_sync {root : String} {img : Img} {src : String} :
    ∀ {ts : List String} {w : List (String × FileContent)},
      sync_targets root img src ts = some w →
      ∀ {p : String} {es : List Img}, (p, FileContent.icoFile es) ∈ w →
      es = ICO_ENTRY_SIZES.map (fun s => Img.resized img s s RESAMPLE_FILTER) := by
  intro ts
  induction ts with
  | nil =>
    intro w hs p es hmem
    simp [sync_targets] at hs
    subst hs
    simp at hmem
  | cons t rest ih =>
    intro w hs p es hmem
    cases hcfg : lookupTarget t with
    | none => simp [sync_targets, hcfg] at hs
    | some cfg =>
      cases hr : sync_targets root img src rest with
      | none => simp [sync_targets, hcfg, hr] at hs
      | some wr =>
        simp only [sync_targets, hcfg, hr, Option.some.injEq] at hs
        subst hs
        rcases List.mem_append.mp hmem with hm | hm
        · exact icoFile_mem_syncTargetWrites hm
        · exact ih hr hm

theorem svgCopy_mem_syncTargetWrites {root : String} {img : Img} {src : String}
    {cfg : TargetConfig} {p q : String}
    (h : (p, FileContent.svgCopy q) ∈ syncTargetWrites root img src cfg) :
    source_is_svg src = true := by
  unfold syncTargetWrites at h
  rcases List.mem_append.mp h with h1 | h1
  · rcases List.mem_append.mp h1 with h2 | h2
    · obtain ⟨e, _, he⟩ := List.mem_map.mp h2
      simp [save_png] at he
    · obtain ⟨r, _, he⟩ := List.mem_map.mp h2
      simp [save_ico] at he
  · by_cases hsvg : source_is_svg src = true
    · exact hsvg
    · rw [if_neg hsvg] at h1
      simp at h1

theorem svgCopy_mem_sync {root : String} {img : Img} {src : String} :
    ∀ {ts : List String} {w : List (String × FileContent)},
      sync_targets root img src ts = some w →
      ∀ {p q : String}, (p, FileContent.svgCopy q) ∈ w → source_is_svg src = true := by
  intro ts
  induction ts with
  | nil =>
    intro w hs p q hmem
    simp [sync_targets] at hs
    subst hs
    simp at hmem
  | cons t rest ih =>
    intro w hs p q hmem
    cases hcfg : lookupTarget t with
    | none => simp [sync_targets, hcfg] at hs
    | some cfg =>
      cases hr : sync_targets root img src rest with
      | none => simp [sync_targets, hcfg, hr] at hs
      | some wr =>
        simp only [sync_targets, hcfg, hr, Option.some.injEq] at hs
        subst hs
        rcases List.mem_append.mp hmem with hm | hm
        · exact svgCopy_mem_syncTargetWrites hm
        · exact ih hr hm

theorem svgCopy_written {root : String} {img : Img} {src : String} :
    ∀ {ts : List String} {w : List (String × FileContent)},
      sync_targets root img src ts = some w →
      ∀ {t : String} {cfg : TargetConfig} {rel : String},
        t ∈ ts → lookupTarget t = some cfg → rel ∈ cfg.svg →
        source_is_svg src = true →
        (joinPath root rel, FileContent.svgCopy src) ∈ w := by
  intro ts
  induction ts with
  | nil =>
    intro w hs t cfg rel ht
    simp at ht
  | cons t0 rest ih =>
    intro w hs t cfg rel ht hcfg hrel hsvg
    cases hcfg0 : lookupTarget t0 with
    | none => simp [sync_targets, hcfg0] at hs
    | some cfg0 =>
      cases hr : sync_targets root img src rest with
      | none => simp [sync_targets, hcfg0, hr] at hs
      | some wr =>
        simp only [sync_targets, hcfg0, hr, Option.some.injEq] at hs
        subst hs
        rcases List.mem_cons.mp ht with rfl | ht2
        · have hc : cfg0 = cfg := by
            rw [hcfg0] at hcfg
            exact Option.some.inj hcfg
          subst hc
          refine List.mem_append.mpr (Or.inl ?_)
          unfold syncTargetWrites
          refine List.mem_append.mpr (Or.inr ?_)
          rw [if_pos hsvg]
          exact List.mem_map.mpr ⟨rel, hrel, rfl⟩
        · exact List.mem_append.mpr (Or.inr (ih hr ht2 hcfg hrel hsvg))

/- ## Claim theorems -/

/-- C1 counterexample: with `--targets bogus` the run stops in `argparse`
(the converter raises `ArgumentTypeError`) and the process exits with
status 2, not 1 as the claim states, even though this is a handled error
condition. -/
theorem C1_counterexample :
    sync_icons_main envPngSquare "repo" "icon.png" "bogus"
        = Outcome.usageError "unknown target(s): bogus. Supported targets: desktop,web"
      ∧ exitCode (sync_icons_main envPngSquare "repo" "icon.png" "bogus") = 2
      ∧ exitCode (sync_icons_main envPngSquare "repo" "icon.png" "bogus") ≠ 1 := by
  refine ⟨by rfl, by rfl, by decide⟩

/-- C1 (amended): every run ends in exactly one of three outcomes: a
`--targets` validation failure, reported through argparse with exit
status 2; a `ValueError` raised while loading the source, caught in
`main`, printed to standard error as a single message prefixed
`error: ` with exit status 1 and no file written; or success with exit
status 0.  The unknown-target case is a usage error with status 2, not a
status-1 `error: ` message. -/
theorem C1_exit_codes (env : Env) (root src tval : String) :
    (∃ e, parse_targets tval = Except.error e
        ∧ sync_icons_main env root src tval = Outcome.usageError e
        ∧ exitCode (Outcome.usageError e) = 2)
  ∨ (∃ m, load_source_image env src = Except.error m
        ∧ sync_icons_main env root src tval = Outcome.handledError m
        ∧ exitCode (Outcome.handledError m) = 1
        ∧ stderrText (Outcome.handledError m) = some ("error: " ++ m)
        ∧ writtenFiles (Outcome.handledError m) = [])
  ∨ (∃ w, sync_icons_main env root src tval = Outcome.success w
        ∧ exitCode (Outcome.success w) = 0
        ∧ stdoutText (Outcome.success w)
            = some ("synced " ++ toString w.length ++ " icon files")) := by
  cases hp : parse_targets tval with
  | error e => exact Or.inl ⟨e, rfl, by simp [sync_icons_main, hp], rfl⟩
  | ok ts =>
    cases hl : load_source_image env src with
    | error m =>
      exact Or.inr (Or.inl ⟨m, rfl, by simp [sync_icons_main, hp, hl], rfl, rfl, rfl⟩)
    | ok img =>
      obtain ⟨_, hall, hts⟩ := parse_targets_ok_inv hp
      have hmem : ∀ t ∈ ts, t ∈ knownTargets :=
        fun t ht => hall t (mem_dedupFirst.mp (hts ▸ ht))
      obtain ⟨w, hw, _⟩ := @sync_targets_known root img src ts hmem
      exact Or.inr (Or.inr ⟨w, by simp [sync_icons_main, hp, hl, hw], rfl, rfl⟩)

/-- C2: whenever the decoded source bitmap has different width and height,
the run stops with the squareness `ValueError` before any file is
written: the outcome is a handled error whose message contains
"must be square", exit status 1, and the written-file list is empty. -/
theorem C2_nonsquare_aborts (env : Env) (root src tval : String) (ts : List String) (rgba : Img)
    (hp : parse_targets tval = Except.ok ts)
    (he : env.sourceExists = true) (hf : env.sourceIsFile = true)
    (hd : decode_branch env src = Except.ok rgba)
    (hne : imgWidth rgba ≠ imgHeight rgba) :
    sync_icons_main env root src tval
        = Outcome.handledError (squareErrorMsg (imgWidth rgba) (imgHeight rgba) src)
      ∧ exitCode (sync_icons_main env root src tval) = 1
      ∧ writtenFiles (sync_icons_main env root src tval) = []
      ∧ ∃ pre post, squareErrorMsg (imgWidth rgba) (imgHeight rgba) src
          = pre ++ ("must be square" ++ post) := by
  have hload : load_source_image env src
      = Except.error (squareErrorMsg (imgWidth rgba) (imgHeight rgba) src) := by
    simp [load_source_image, he, hf, hd, hne]
  have hmain : sync_icons_main env root src tval
      = Outcome.handledError (squareErrorMsg (imgWidth rgba) (imgHeight rgba) src) := by
    simp [sync_icons_main, hp, hload]
  refine ⟨hmain, by rw [hmain]; rfl, by rw [hmain]; rfl, ?_⟩
  refine ⟨"source image ",
    ", got " ++ (toString (imgWidth rgba)
      ++ ("x" ++ (toString (imgHeight rgba) ++ (": " ++ src)))), ?_⟩
  have key : ("source image must be square, got " : String)
      = "source image " ++ ("must be square" ++ ", got ") := by decide
  simp only [squareErrorMsg]
  rw [key]
  simp only [String.append_assoc]

/-- C2 witness: a 100x50 PNG source aborts the run with the squareness
error. -/
theorem C2_nonsquare_aborts_witness :
    sync_icons_main envNonSquare "repo" "icon.png" "web"
      = Outcome.handledError (squareErrorMsg 100 50 "icon.png") :=
  (C2_nonsquare_aborts envNonSquare "repo" "icon.png" "web" ["web"]
    (Img.converted (Img.decoded "PNG" "RGBA" 100 50) "RGBA")
    (by rfl) (by rfl) (by rfl) (by rfl) (by decide)).1

/-- C3: `--targets web,desktop,web` parses to exactly `[web, desktop]`;
in general a successful parse returns the first-occurrence deduplication
of the trimmed tokens (duplicate-free, an order-preserving sublist of the
token list, with the same members); and syncing `[web, desktop]` writes
each of the ten output paths of the two targets exactly once. -/
theorem C3_dedup_first_order :
    parse_targets "web,desktop,web" = Except.ok ["web", "desktop"]
  ∧ (∀ value ts, parse_targets value = Except.ok ts →
      ts = dedupFirst (pyTokens value) ∧ ts.Nodup
        ∧ List.Sublist ts (pyTokens value) ∧ (∀ t, t ∈ ts ↔ t ∈ pyTokens value))
  ∧ ((sync_targets "repo" imgDemo "icon.png" ["web", "desktop"]).map
        (fun w => w.map Prod.fst))
      = some ["repo/web/public/favicon-16x16.png", "repo/web/public/favicon-32x32.png",
              "repo/web/public/videnoa_icon.png", "repo/web/public/favicon.ico",
              "repo/crates/desktop/icons/icon.png", "repo/crates/desktop/icons/icon-32.png",
              "repo/crates/desktop/icons/icon-64.png", "repo/crates/desktop/icons/icon-128.png",
              "repo/crates/desktop/icons/icon-256.png", "repo/crates/desktop/icons/icon.ico"]
  ∧ (["repo/web/public/favicon-16x16.png", "repo/web/public/favicon-32x32.png",
      "repo/web/public/videnoa_icon.png", "repo/web/public/favicon.ico",
      "repo/crates/desktop/icons/icon.png", "repo/crates/desktop/icons/icon-32.png",
      "repo/crates/desktop/icons/icon-64.png", "repo/crates/desktop/icons/icon-128.png",
      "repo/crates/desktop/icons/icon-256.png",
      "repo/crates/desktop/icons/icon.ico"] : List String).Nodup := by
  refine ⟨by rfl, ?_, by rfl, by decide⟩
  intro value ts h
  obtain ⟨_, _, hts⟩ := parse_targets_ok_inv h
  subst hts
  exact ⟨rfl, nodup_dedupFirstAux, sublist_dedupFirstAux, fun t => mem_dedupFirst⟩

/-- C3 witness: the parsed list for the duplicated value is duplicate
free. -/
theorem C3_dedup_first_order_witness : (["web", "desktop"] : List String).Nodup :=
  (C3_dedup_first_order.2.1 "web,desktop,web" ["web", "desktop"]
    C3_dedup_first_order.1).2.1

/-- C4: `--targets` parsing fails with a usage error whenever the token
list is empty after trimming, and whenever some trimmed token is unknown;
in the unknown case the message ends by enumerating the full supported
set `desktop,web`. -/
theorem C4_targets_usage_errors (value : String) :
    (pyTokens value = [] →
      parse_targets value = Except.error "--targets must include at least one target")
  ∧ (∀ t, t ∈ pyTokens value → t ∉ knownTargets →
      ∃ u, parse_targets value
        = Except.error ("unknown target(s): " ++ u ++ ". Supported targets: desktop,web")) := by
  constructor
  · intro h
    simp [parse_targets, h]
  · intro t ht hk
    refine ⟨joinComma (unknownSorted value), ?_⟩
    rw [parse_targets_error_unknown ht hk]
    have key : (". Supported targets: " ++ joinComma (sortStrings knownTargets) : String)
        = ". Supported targets: desktop,web" := by decide
    congr 1
    rw [String.append_assoc, key]

/-- C4 witness: the empty list and the unknown token `bogus` both fail as
described. -/
theorem C4_targets_usage_errors_witness :
    parse_targets "" = Except.error "--targets must include at least one target"
      ∧ ∃ u, parse_targets "bogus"
          = Except.error ("unknown target(s): " ++ u ++ ". Supported targets: desktop,web") :=
  ⟨(C4_targets_usage_errors "").1 (by rfl),
   (C4_targets_usage_errors "bogus").2 "bogus" (by decide) (by decide)⟩

/-- C5: on a valid run the writer returns the written paths exactly in
the order: selected targets in selection order, and per target the PNG
entries in declared order, then the ICO paths, then (for an SVG source)
the SVG paths; and `main` prints the count of files written and exits
zero. -/
theorem C5_write_order (env : Env) (root src tval : String) (ts : List String) (img : Img)
    (hp : parse_targets tval = Except.ok ts)
    (hl : load_source_image env src = Except.ok img) :
    ∃ w, sync_icons_main env root src tval = Outcome.success w
      ∧ w.map Prod.fst = concatPaths (declared_output_paths root (source_is_svg src)) ts
      ∧ stdoutText (sync_icons_main env root src tval)
          = some ("synced " ++ toString w.length ++ " icon files")
      ∧ exitCode (sync_icons_main env root src tval) = 0 := by
  obtain ⟨_, hall, hts⟩ := parse_targets_ok_inv hp
  have hmem : ∀ t ∈ ts, t ∈ knownTargets :=
    fun t ht => hall t (mem_dedupFirst.mp (hts ▸ ht))
  obtain ⟨w, hw, hmap⟩ := @sync_targets_known root img src ts hmem
  have hmain : sync_icons_main env root src tval = Outcome.success w := by
    simp [sync_icons_main, hp, hl, hw]
  exact ⟨w, hmain, hmap, by rw [hmain]; rfl, by rw [hmain]; rfl⟩

/-- C5 witness: a valid PNG run on target `web` succeeds with exit
status 0. -/
theorem C5_write_order_witness :
    exitCode (sync_icons_main envPngSquare "repo" "icon.png" "web") = 0 := by
  obtain ⟨w, hw, hmap, hout, hzero⟩ := C5_write_order envPngSquare "repo" "icon.png" "web"
    ["web"]
    (Img.fromBytes "RGBA" 512 512 (Img.converted (Img.decoded "PNG" "RGBA" 512 512) "RGBA"))
    (by rfl) (by rfl)
  exact hzero

/-- C6: every ICO file emitted by the writer embeds exactly the seven
raster sizes 16, 24, 32, 48, 64, 128, 256, each frame derived by resizing
the normalized source with the shared resampling filter. -/
theorem C6_ico_embedded_sizes (root : String) (img : Img) (src : String) (ts : List String)
    (w : List (String × FileContent)) (p : String) (es : List Img)
    (hs : sync_targets root img src ts = some w)
    (hmem : (p, FileContent.icoFile es) ∈ w) :
    es = ICO_ENTRY_SIZES.map (fun s => Img.resized img s s RESAMPLE_FILTER)
      ∧ es.map imgWidth = [16, 24, 32, 48, 64, 128, 256]
      ∧ es.map imgHeight = [16, 24, 32, 48, 64, 128, 256] := by
  have he := icoFile_mem_sync hs hmem
  subst he
  exact ⟨rfl, by rfl, by rfl⟩

/-- C6 witness: the ICO written for target `web` embeds exactly the seven
widths. -/
theorem C6_ico_embedded_sizes_witness :
    (ICO_ENTRY_SIZES.map (fun s => Img.resized imgDemo s s RESAMPLE_FILTER)).map imgWidth
      = [16, 24, 32, 48, 64, 128, 256] :=
  (C6_ico_embedded_sizes "repo" imgDemo "icon.png" ["web"]
    ((sync_targets "repo" imgDemo "icon.png" ["web"]).getD [])
    "repo/web/public/favicon.ico"
    (ICO_ENTRY_SIZES.map (fun s => Img.resized imgDemo s s RESAMPLE_FILTER))
    (by rfl) (by decide)).2.1

/-- C7: an SVG passthrough copy appears among the written files only when
the source file itself is SVG, and each SVG path configured on a selected
target is written exactly when the source is SVG; in particular, a PNG
source with target `web` writes exactly 3 PNG files, 1 ICO file and no
SVG file. -/
theorem C7_svg_passthrough (root : String) (img : Img) (src : String) (ts : List String)
    (w : List (String × FileContent)) (hs : sync_targets root img src ts = some w) :
    (∀ p q, (p, FileContent.svgCopy q) ∈ w → source_is_svg src = true)
  ∧ (∀ t cfg rel, t ∈ ts → lookupTarget t = some cfg → rel ∈ cfg.svg →
      ((joinPath root rel, FileContent.svgCopy src) ∈ w ↔ source_is_svg src = true))
  ∧ countContent isPngContent ((sync_targets "repo" imgDemo "icon.png" ["web"]).getD []) = 3
  ∧ countContent isIcoContent ((sync_targets "repo" imgDemo "icon.png" ["web"]).getD []) = 1
  ∧ countContent isSvgCopyContent ((sync_targets "repo" imgDemo "icon.png" ["web"]).getD []) = 0 := by
  refine ⟨fun p q hm => svgCopy_mem_sync hs hm,
    fun t cfg rel ht hcfg hrel => ⟨?_, ?_⟩, by decide, by decide, by decide⟩
  · intro hmem
    exact svgCopy_mem_sync hs hmem
  · intro hsvg
    exact svgCopy_written hs ht hcfg hrel hsvg

/-- C7 witness: with an SVG source and target `web`, the configured SVG
passthrough file is among the writes. -/
theorem C7_svg_passthrough_witness :
    ("repo/web/public/favicon.svg", FileContent.svgCopy "icon.svg")
      ∈ (sync_targets "repo" imgDemo "icon.svg" ["web"]).getD [] := by
  have h := (C7_svg_passthrough "repo" imgDemo "icon.svg" ["web"]
      ((sync_targets "repo" imgDemo "icon.svg" ["web"]).getD []) (by rfl)).2.1
  exact (h "web" ((lookupTarget "web").getD ⟨[], [], []⟩) "web/public/favicon.svg"
    (by decide) (by rfl) (by decide)).mpr (by decide)

/-- C8: for an SVG source with ImageMagick `convert` not resolvable on the
PATH, the run fails with the message saying the tool is not installed,
exits with status 1, and writes nothing (the failure happens while
loading, before any write). -/
theorem C8_svg_without_rasterizer (env : Env) (root src tval : String) (ts : List String)
    (hp : parse_targets tval = Except.ok ts)
    (he : env.sourceExists = true) (hf : env.sourceIsFile = true)
    (hsvg : strLower (pathSuffix src) = ".svg")
    (hc : env.convertAvailable = false) :
    sync_icons_main env root src tval
        = Outcome.handledError "source is SVG but ImageMagick \x27convert\x27 is not installed"
      ∧ exitCode (sync_icons_main env root src tval) = 1
      ∧ writtenFiles (sync_icons_main env root src tval) = []
      ∧ ∃ pre post, ("source is SVG but ImageMagick \x27convert\x27 is not installed" : String)
          = pre ++ ("is not installed" ++ post) := by
  have hdb : decode_branch env src
      = Except.error "source is SVG but ImageMagick \x27convert\x27 is not installed" := by
    simp [decode_branch, hsvg, load_svg_image, hc,
      show (".svg" : String) ≠ ".png" from by decide]
  have hload : load_source_image env src
      = Except.error "source is SVG but ImageMagick \x27convert\x27 is not installed" := by
    simp [load_source_image, he, hf, hdb]
  have hmain : sync_icons_main env root src tval
      = Outcome.handledError "source is SVG but ImageMagick \x27convert\x27 is not installed" := by
    simp [sync_icons_main, hp, hload]
  refine ⟨hmain, by rw [hmain]; rfl, by rw [hmain]; rfl,
    "source is SVG but ImageMagick \x27convert\x27 ", "", by decide⟩

/-- C8 witness: concrete SVG run without the rasterizer fails as
described. -/
theorem C8_svg_without_rasterizer_witness :
    sync_icons_main envNoConvert "repo" "icon.svg" "web"
      = Outcome.handledError "source is SVG but ImageMagick \x27convert\x27 is not installed" :=
  (C8_svg_without_rasterizer envNoConvert "repo" "icon.svg" "web" ["web"]
    (by rfl) (by rfl) (by rfl) (by decide) (by rfl)).1

/-- C9: extension handling is case-insensitive and consistent: whenever
the writer's SVG test holds the loader dispatches to the SVG branch, a
lower-cased ".png" suffix dispatches to the PNG branch, and concretely a
".SVG" path both rasterizes (observable through the missing-rasterizer
error) and triggers SVG passthrough, while a ".PNG" path decodes as
PNG. -/
theorem C9_suffix_case_insensitive :
    (∀ env p, source_is_svg p = true → decode_branch env p = load_svg_image env p)
  ∧ (∀ env p, strLower (pathSuffix p) = ".png" → decode_branch env p = load_png_image env p)
  ∧ source_is_svg "assets/icon.SVG" = true
  ∧ strLower (pathSuffix "icon.PNG") = ".png"
  ∧ load_source_image envNoConvert "assets/icon.SVG"
      = Except.error "source is SVG but ImageMagick \x27convert\x27 is not installed"
  ∧ load_source_image envPngSquare "icon.PNG"
      = Except.ok (Img.fromBytes "RGBA" 512 512
          (Img.converted (Img.decoded "PNG" "RGBA" 512 512) "RGBA"))
  ∧ countContent isSvgCopyContent
      ((sync_targets "repo" imgDemo "photo.SVG" ["web"]).getD []) = 1 := by
  refine ⟨?_, ?_, by decide, by decide, by rfl, by rfl, by decide⟩
  · intro env p hsvg
    have h : strLower (pathSuffix p) = ".svg" := of_decide_eq_true hsvg
    simp [decode_branch, h, show (".svg" : String) ≠ ".png" from by decide]
  · intro env p hpng
    simp [decode_branch, hpng]

/-- C9 witness: the loader dispatch agrees with the writer's SVG test on
an upper-case suffix. -/
theorem C9_suffix_case_insensitive_witness :
    decode_branch envNoConvert "a.SVG" = load_svg_image envNoConvert "a.SVG" :=
  C9_suffix_case_insensitive.1 envNoConvert "a.SVG" (by decide)

/-- C10: every target list produced by `parse_targets` makes all registry
lookups in the writer succeed, so the writer can never raise `KeyError`:
each parsed target has a configuration and `sync_targets` returns a
write list. -/
theorem C10_registry_lookup_total (tval : String) (ts : List String) (root : String)
    (img : Img) (src : String) (hp : parse_targets tval = Except.ok ts) :
    (∀ t ∈ ts, (lookupTarget t).isSome) ∧ ∃ w, sync_targets root img src ts = some w := by
  obtain ⟨_, hall, hts⟩ := parse_targets_ok_inv hp
  have hmem : ∀ t ∈ ts, t ∈ knownTargets :=
    fun t ht => hall t (mem_dedupFirst.mp (hts ▸ ht))
  obtain ⟨w, hw, _⟩ := @sync_targets_known root img src ts hmem
  exact ⟨fun t ht => lookupTarget_isSome (hmem t ht), w, hw⟩

/-- C10 witness: syncing the parsed list `[web, desktop]` returns a write
list. -/
theorem C10_registry_lookup_total_witness :
    (sync_targets "repo" imgDemo "icon.png" ["web", "desktop"]).isSome := by
  obtain ⟨w, hw⟩ := (C10_registry_lookup_total "web,desktop" ["web", "desktop"]
    "repo" imgDemo "icon.png" (by rfl)).2
  rw [hw]
  rfl
